import Mathlib

/-!
Verification development for the pg_auto_failover monitor core: the node
metadata model declared in src/monitor/node_metadata.h, together with the
monitor reporting API and failover decision engine described in the design
document. The header in the repository provides the data model (the
AutoFailoverNode record, the SyncState enumeration and the column-index
constants) and the signatures of the store operations; the bodies of those
operations and of the decision engine are not part of the provided sources,
so they are modelled here from the specification text, as indicated in the
doc comment of each such definition.
-/

namespace PgAutoFailover

/-- SyncState, from src/monitor/node_metadata.h: the pg_stat_replication
sync_state values sync, async, quorum, potential, plus unknown. -/
inductive SyncState where
  | SYNC_STATE_UNKNOWN
  | SYNC_STATE_SYNC
  | SYNC_STATE_ASYNC
  | SYNC_STATE_QUORUM
  | SYNC_STATE_POTENTIAL
deriving DecidableEq, Repr

/-- Modelled from the spec: replication_state.h is not among the provided
sources; the ReplicationState vocabulary is taken verbatim from section 4.2
of the design document. -/
inductive ReplicationState where
  | init
  | single
  | wait_primary
  | primary
  | wait_standby
  | catchingup
  | secondary
  | prepare_promotion
  | stop_replication
  | wait_maintenance
  | maintenance
  | demoted
  | draining
  | report_lsn
  | fast_forward
  | join_primary
deriving DecidableEq, Repr

/-- Modelled from the spec: health_check.h is not among the provided sources;
NodeHealthState is the tri-state of section 4.2. -/
inductive NodeHealthState where
  | unknown
  | bad
  | good
deriving DecidableEq, Repr

/-- AutoFailoverNode, from src/monitor/node_metadata.h: one record per
Postgres node tracked by the monitor. XLogRecPtr is embedded as Nat,
TimestampTz as Int, C int fields as Int. -/
structure AutoFailoverNode where
  formationId : String
  nodeId : Int
  groupId : Int
  nodeName : String
  nodePort : Int
  goalState : ReplicationState
  reportedState : ReplicationState
  reportTime : Int
  pgIsRunning : Bool
  pgsrSyncState : SyncState
  reportedLSN : Nat
  walReportTime : Int
  health : NodeHealthState
  healthCheckTime : Int
  stateChangeTime : Int
  candidatePriority : Int
  replicationQuorum : Bool
deriving DecidableEq, Repr

/-- Error taxonomy of section 7 of the design document. -/
inductive MonitorError where
  | NotFound
  | DuplicateNode
  | InvalidTransition
  | NodeInUse
  | StaleReport
  | PromotionStalled
deriving DecidableEq, Repr

/-! Column-index constants for the pgautofailover.node table, copied from
src/monitor/node_metadata.h. -/

def Natts_pgautofailover_node : Nat := 15
def Anum_pgautofailover_node_formationid : Nat := 1
def Anum_pgautofailover_node_nodeid : Nat := 2
def Anum_pgautofailover_node_groupid : Nat := 3
def Anum_pgautofailover_node_nodename : Nat := 4
def Anum_pgautofailover_node_nodeport : Nat := 5
def Anum_pgautofailover_node_goalstate : Nat := 6
def Anum_pgautofailover_node_reportedstate : Nat := 7
def Anum_pgautofailover_node_reportedpgisrunning : Nat := 8
def Anum_pgautofailover_node_reportedrepstate : Nat := 9
def Anum_pgautofailover_node_reporttime : Nat := 10
def Anum_pgautofailover_node_reportedLSN : Nat := 11
def Anum_pgautofailover_node_walreporttime : Nat := 12
def Anum_pgautofailover_node_health : Nat := 13
def Anum_pgautofailover_node_healthchecktime : Nat := 14
def Anum_pgautofailover_node_statechangetime : Nat := 15
def Anum_pgautofailover_node_candidate_priority : Nat := 16
def Anum_pgautofailover_node_replication_quorum : Nat := 17

/-- Modelled from the spec: the body of SyncStateFromString is not among the
provided sources (only its declaration in node_metadata.h); section 4.2 says
the parser maps the four lowercase tokens and yields unknown on any other
input, never an error. -/
def SyncStateFromString (pgsrSyncState : String) : SyncState :=
  if pgsrSyncState = "sync" then SyncState.SYNC_STATE_SYNC
  else if pgsrSyncState = "async" then SyncState.SYNC_STATE_ASYNC
  else if pgsrSyncState = "quorum" then SyncState.SYNC_STATE_QUORUM
  else if pgsrSyncState = "potential" then SyncState.SYNC_STATE_POTENTIAL
  else SyncState.SYNC_STATE_UNKNOWN

/-- Modelled from the spec: serialization direction of the mapping table of
section 4.2 and design note on enumerated string encodings. -/
def SyncStateToString (pgsrSyncState : SyncState) : String :=
  match pgsrSyncState with
  | SyncState.SYNC_STATE_SYNC => "sync"
  | SyncState.SYNC_STATE_ASYNC => "async"
  | SyncState.SYNC_STATE_QUORUM => "quorum"
  | SyncState.SYNC_STATE_POTENTIAL => "potential"
  | SyncState.SYNC_STATE_UNKNOWN => "unknown"

/-- Modelled from the spec: the primary-like tag of section 4.2 over the
state vocabulary; primary lifecycle states of the machine in section 4.3. -/
def isPrimaryLike : ReplicationState → Bool
  | ReplicationState.single => true
  | ReplicationState.wait_primary => true
  | ReplicationState.primary => true
  | ReplicationState.join_primary => true
  | _ => false

/-- Modelled from the spec: the standby-like tag of section 4.2. -/
def isStandbyLike : ReplicationState → Bool
  | ReplicationState.secondary => true
  | ReplicationState.catchingup => true
  | ReplicationState.wait_standby => true
  | ReplicationState.report_lsn => true
  | _ => false

/-- Modelled from the spec: the promotion track of the candidate lifecycle,
secondary to prepare_promotion to wait_primary to primary (section 4.3). -/
def promotionTrack : ReplicationState → Bool
  | ReplicationState.prepare_promotion => true
  | ReplicationState.wait_primary => true
  | ReplicationState.primary => true
  | _ => false

/-- Modelled from the spec: states in which a node is deliberately being
decommissioned or demoted through the state machine (section 4.1, removal
clause, and the maintenance side branch of section 4.3). -/
def isDecommissioned : ReplicationState → Bool
  | ReplicationState.draining => true
  | ReplicationState.demoted => true
  | ReplicationState.wait_maintenance => true
  | ReplicationState.maintenance => true
  | _ => false

/-- Modelled from the spec: candidate eligibility of section 4.3 trigger 3,
an eligible standby has health good, sync state sync or quorum, and the
replication quorum flag set. -/
def isEligibleCandidate (n : AutoFailoverNode) : Bool :=
  isStandbyLike n.reportedState
    && n.health == NodeHealthState.good
    && (n.pgsrSyncState == SyncState.SYNC_STATE_SYNC
        || n.pgsrSyncState == SyncState.SYNC_STATE_QUORUM)
    && n.replicationQuorum

/-- Modelled from the spec: a node that can serve as or become primary for
the purpose of the removal safety check of section 4.1. -/
def primaryCapable (n : AutoFailoverNode) : Bool :=
  isPrimaryLike n.goalState || isEligibleCandidate n

/-- Modelled from the spec: candidate preference of trigger 3, higher
candidatePriority wins, ties broken by lower node id. -/
def betterCandidate (a b : AutoFailoverNode) : AutoFailoverNode :=
  if a.candidatePriority < b.candidatePriority then b
  else if b.candidatePriority = a.candidatePriority ∧ b.nodeId < a.nodeId then b
  else a

/-- Modelled from the spec: deterministic candidate selection among eligible
standbys (section 4.3 trigger 3). -/
def selectCandidate (nodes : List AutoFailoverNode) : Option AutoFailoverNode :=
  match nodes.filter isEligibleCandidate with
  | [] => none
  | x :: xs => some (xs.foldl betterCandidate x)

/-- Node id of the selected candidate, if any. -/
def selectedId (nodes : List AutoFailoverNode) : Option Int :=
  (selectCandidate nodes).map (fun n => n.nodeId)

/-- True when some node of the group has a primary-like goal state. -/
def hasPrimaryLikeGoal (nodes : List AutoFailoverNode) : Bool :=
  nodes.any (fun n => isPrimaryLike n.goalState)

/-- True when some node other than the one with the given id has a
primary-like goal state. -/
def otherPrimaryLike (nodes : List AutoFailoverNode) (i : Int) : Bool :=
  nodes.any (fun n => n.nodeId != i && isPrimaryLike n.goalState)

/-- True when a promotion is already in flight in the group: some node has
goal state prepare_promotion or wait_primary. -/
def promotionInFlight (nodes : List AutoFailoverNode) : Bool :=
  nodes.any (fun n =>
    n.goalState == ReplicationState.prepare_promotion
      || n.goalState == ReplicationState.wait_primary)

/-- Modelled from the spec: the wait_primary to primary edge of section 4.3
fires on the first standby reaching secondary, or with zero standbys. -/
def standbyConfirmed (nodes : List AutoFailoverNode) (i : Int) : Bool :=
  nodes.any (fun n =>
      n.nodeId != i && n.reportedState == ReplicationState.secondary)
    || nodes.all (fun n => n.nodeId == i)

/-- Modelled from the spec: the health-driven failover trigger of section
4.3 trigger 2; the partition-timeout comparison is an externally supplied
Boolean, a failed primary-like node must exist, an eligible candidate must
exist, and no promotion may already be in flight. -/
def failoverTrigger (timeoutExpired : Bool) (nodes : List AutoFailoverNode) : Prop :=
  timeoutExpired = true
    ∧ promotionInFlight nodes = false
    ∧ (selectedId nodes).isSome = true
    ∧ ∃ p, p ∈ nodes ∧ isPrimaryLike p.goalState = true ∧ p.health = NodeHealthState.bad

instance (timeoutExpired : Bool) (nodes : List AutoFailoverNode) :
    Decidable (failoverTrigger timeoutExpired nodes) := by
  unfold failoverTrigger
  exact inferInstance

/-- Modelled from the spec: the next goal state the decision engine of
section 4.3 assigns to one node of the group, as a pure function of the
group snapshot. The branches are, in order: demote a failed primary-like
node (trigger 2), designate the selected candidate (triggers 2 and 3),
advance a candidate that reported prepare_promotion past the LSN gate
(triggers 1 and 4), confirm a wait_primary node that reported wait_primary
once a standby reached secondary or it is alone (trigger 1 and the state
machine edges); otherwise hold the current goal state. gateLSN is the last
known committed LSN of the failed primary, tracked externally per trigger 4. -/
def nextGoal (timeoutExpired : Bool) (gateLSN : Nat)
    (nodes : List AutoFailoverNode) (n : AutoFailoverNode) : ReplicationState :=
  if failoverTrigger timeoutExpired nodes
      ∧ isPrimaryLike n.goalState = true ∧ n.health = NodeHealthState.bad then
    ReplicationState.draining
  else if failoverTrigger timeoutExpired nodes
      ∧ selectedId nodes = some n.nodeId ∧ isEligibleCandidate n = true then
    ReplicationState.prepare_promotion
  else if n.goalState = ReplicationState.prepare_promotion
      ∧ n.reportedState = ReplicationState.prepare_promotion
      ∧ n.health = NodeHealthState.good
      ∧ gateLSN ≤ n.reportedLSN
      ∧ hasPrimaryLikeGoal nodes = false then
    ReplicationState.wait_primary
  else if n.goalState = ReplicationState.wait_primary
      ∧ n.reportedState = ReplicationState.wait_primary
      ∧ n.health = NodeHealthState.good
      ∧ otherPrimaryLike nodes n.nodeId = false
      ∧ standbyConfirmed nodes n.nodeId = true then
    ReplicationState.primary
  else n.goalState

/-- Goal-state update of one node by the decision engine. -/
def updGoal (timeoutExpired : Bool) (gateLSN : Nat)
    (nodes : List AutoFailoverNode) (n : AutoFailoverNode) : AutoFailoverNode :=
  { n with goalState := nextGoal timeoutExpired gateLSN nodes n }

/-- Modelled from the spec: one invocation of the failover decision engine
on a group snapshot (section 4.3); it recomputes every goal state as a pure
function of the unchanged snapshot. -/
def decisionEngine (timeoutExpired : Bool) (gateLSN : Nat)
    (nodes : List AutoFailoverNode) : List AutoFailoverNode :=
  nodes.map (updGoal timeoutExpired gateLSN nodes)

/-- Modelled from the spec: per-node application of a keeper state report,
section 4.1 reportState and the failure semantics of section 4.3; a stale
report, one whose report timestamp is older than the stored one, is ignored
(StaleReport), and a malformed report that would make the reported LSN
regress absent a hard reset is likewise ignored rather than applied. -/
def applyNodeStateReport (n : AutoFailoverNode)
    (reportedState : ReplicationState) (pgIsRunning : Bool)
    (pgsrSyncState : SyncState) (reportedLSN : Nat) (reportTime : Int) :
    AutoFailoverNode :=
  if reportTime < n.reportTime then n
  else if reportedLSN < n.reportedLSN then n
  else { n with
         reportedState := reportedState
         pgIsRunning := pgIsRunning
         pgsrSyncState := pgsrSyncState
         reportedLSN := reportedLSN
         reportTime := reportTime
         walReportTime := reportTime }

/-- Modelled from the spec: ReportAutoFailoverNodeState is declared in
node_metadata.h but its body is not among the provided sources; per section
4.1 it is an atomic read-modify-write keyed by node identity, and per
section 7 a stale report never fails the calling request. -/
def ReportAutoFailoverNodeState (store : List AutoFailoverNode)
    (nodeName : String) (nodePort : Int)
    (reportedState : ReplicationState) (pgIsRunning : Bool)
    (pgsrSyncState : SyncState) (reportedLSN : Nat) (reportTime : Int) :
    List AutoFailoverNode × Except MonitorError Unit :=
  (store.map (fun n =>
     if n.nodeName == nodeName && n.nodePort == nodePort then
       applyNodeStateReport n reportedState pgIsRunning pgsrSyncState
         reportedLSN reportTime
     else n),
   Except.ok ())

/-- Modelled from the spec: ReportAutoFailoverNodeHealth is declared in
node_metadata.h but its body is not among the provided sources; it records
the health tri-state and its timestamp for the identified node. -/
def ReportAutoFailoverNodeHealth (store : List AutoFailoverNode)
    (nodeName : String) (nodePort : Int)
    (health : NodeHealthState) (healthCheckTime : Int) :
    List AutoFailoverNode :=
  store.map (fun n =>
    if n.nodeName == nodeName && n.nodePort == nodePort then
      { n with health := health, healthCheckTime := healthCheckTime }
    else n)

/-- Modelled from the spec: ReportAutoFailoverNodeReplicationState is
declared in node_metadata.h but its body is not among the provided sources;
it records candidate priority and the replication quorum flag. -/
def ReportAutoFailoverNodeReplicationState (store : List AutoFailoverNode)
    (nodeName : String) (nodePort : Int)
    (candidatePriority : Int) (replicationQuorum : Bool) :
    List AutoFailoverNode :=
  store.map (fun n =>
    if n.nodeName == nodeName && n.nodePort == nodePort then
      { n with candidatePriority := candidatePriority
               replicationQuorum := replicationQuorum }
    else n)

/-- Next node id within a formation: one more than the largest id in use. -/
def nextNodeId (store : List AutoFailoverNode) (formationId : String) : Int :=
  (store.filter (fun n => n.formationId == formationId)).foldl
    (fun m n => max m n.nodeId) 0 + 1

/-- Modelled from the spec: AddAutoFailoverNode is declared in
node_metadata.h but its body is not among the provided sources; per section
4.1 it fails with DuplicateNode when the (name, port) pair is already
registered in the formation, and otherwise appends the new node record and
returns the assigned id. The store is returned unchanged on failure. -/
def AddAutoFailoverNode (store : List AutoFailoverNode)
    (formationId : String) (groupId : Int)
    (nodeName : String) (nodePort : Int)
    (goalState reportedState : ReplicationState)
    (candidatePriority : Int) (replicationQuorum : Bool) :
    List AutoFailoverNode × Except MonitorError Int :=
  if store.any (fun n =>
       n.formationId == formationId
         && n.nodeName == nodeName && n.nodePort == nodePort) then
    (store, Except.error MonitorError.DuplicateNode)
  else
    (store ++ [{ formationId := formationId
                 nodeId := nextNodeId store formationId
                 groupId := groupId
                 nodeName := nodeName
                 nodePort := nodePort
                 goalState := goalState
                 reportedState := reportedState
                 reportTime := 0
                 pgIsRunning := false
                 pgsrSyncState := SyncState.SYNC_STATE_UNKNOWN
                 reportedLSN := 0
                 walReportTime := 0
                 health := NodeHealthState.unknown
                 healthCheckTime := 0
                 stateChangeTime := 0
                 candidatePriority := candidatePriority
                 replicationQuorum := replicationQuorum }],
     Except.ok (nextNodeId store formationId))

/-- Modelled from the spec: RemoveAutoFailoverNode is declared in
node_metadata.h but its body is not among the provided sources; per section
4.1 it fails with NodeInUse when removal would leave the group without a
primary-capable node set after removal, that is, when no other node of the
group is primary-capable, unless the node itself is being deliberately
decommissioned through the state machine. The store is returned unchanged
on failure. -/
def RemoveAutoFailoverNode (store : List AutoFailoverNode)
    (nodeName : String) (nodePort : Int) :
    List AutoFailoverNode × Except MonitorError Unit :=
  match store.find? (fun n => n.nodeName == nodeName && n.nodePort == nodePort) with
  | none => (store, Except.error MonitorError.NotFound)
  | some n =>
    if !isDecommissioned n.goalState
        && !((store.filter (fun m =>
              m.formationId == n.formationId && m.groupId == n.groupId
                && !(m.nodeName == nodeName && m.nodePort == nodePort))).any
            primaryCapable) then
      (store, Except.error MonitorError.NodeInUse)
    else
      (store.filter (fun m => !(m.nodeName == nodeName && m.nodePort == nodePort)),
       Except.ok ())

/-- One serialized monitor operation on a group of nodes: a keeper state
report, a health report, a replication-properties report, or one decision
engine invocation (sections 4.1, 4.3 and 4.4). -/
inductive MonitorStep where
  | report (nodeName : String) (nodePort : Int)
      (reportedState : ReplicationState) (pgIsRunning : Bool)
      (pgsrSyncState : SyncState) (reportedLSN : Nat) (reportTime : Int)
  | health (nodeName : String) (nodePort : Int)
      (h : NodeHealthState) (healthCheckTime : Int)
  | repl (nodeName : String) (nodePort : Int)
      (candidatePriority : Int) (replicationQuorum : Bool)
  | engine (timeoutExpired : Bool) (gateLSN : Nat)
deriving DecidableEq, Repr

/-- Apply one serialized monitor operation to a group snapshot. -/
def applyStep (st : MonitorStep) (nodes : List AutoFailoverNode) :
    List AutoFailoverNode :=
  match st with
  | MonitorStep.report nodeName nodePort rs run ss lsn rt =>
    (ReportAutoFailoverNodeState nodes nodeName nodePort rs run ss lsn rt).1
  | MonitorStep.health nodeName nodePort h t =>
    ReportAutoFailoverNodeHealth nodes nodeName nodePort h t
  | MonitorStep.repl nodeName nodePort cp q =>
    ReportAutoFailoverNodeReplicationState nodes nodeName nodePort cp q
  | MonitorStep.engine t g => decisionEngine t g nodes

/-- Apply a sequence of serialized monitor operations, in order. -/
def runSteps (steps : List MonitorStep) (nodes : List AutoFailoverNode) :
    List AutoFailoverNode :=
  steps.foldl (fun s st => applyStep st s) nodes

/-- A node counts toward the dual-primary safety argument when its goal
state is primary-like or it is the designated promotion candidate. -/
def Qpred (n : AutoFailoverNode) : Prop :=
  isPrimaryLike n.goalState = true
    ∨ n.goalState = ReplicationState.prepare_promotion

instance (n : AutoFailoverNode) : Decidable (Qpred n) := by
  unfold Qpred
  exact inferInstance

/-- At most one node of the snapshot satisfies Qpred. -/
def atMostOneQ (nodes : List AutoFailoverNode) : Prop :=
  ∀ a ∈ nodes, ∀ b ∈ nodes, Qpred a → Qpred b → a = b

instance (nodes : List AutoFailoverNode) : Decidable (atMostOneQ nodes) := by
  unfold atMostOneQ
  exact inferInstance

/-- Monitor invariant on a group snapshot: node ids are pairwise distinct,
and at most one node holds a primary-like or prepare_promotion goal state. -/
def monitorInv (nodes : List AutoFailoverNode) : Prop :=
  (nodes.map (fun n => n.nodeId)).Nodup ∧ atMostOneQ nodes

instance (nodes : List AutoFailoverNode) : Decidable (monitorInv nodes) := by
  unfold monitorInv
  exact inferInstance

/-- Sample node builder used by concrete witnesses. -/
def mkNode (nm : String) (id : Int) (goal reported : ReplicationState)
    (h : NodeHealthState) (ss : SyncState) (lsn : Nat) (pri : Int) (q : Bool) :
    AutoFailoverNode :=
  { formationId := "default"
    nodeId := id
    groupId := 0
    nodeName := nm
    nodePort := 5432
    goalState := goal
    reportedState := reported
    reportTime := 100
    pgIsRunning := true
    pgsrSyncState := ss
    reportedLSN := lsn
    walReportTime := 100
    health := h
    healthCheckTime := 100
    stateChangeTime := 100
    candidatePriority := pri
    replicationQuorum := q }

/-- Candidate preference order: c is at least as preferred as m when c has
strictly higher priority, or equal priority and an id no larger. -/
def notWorse (m c : AutoFailoverNode) : Prop :=
  m.candidatePriority < c.candidatePriority
    ∨ (m.candidatePriority = c.candidatePriority ∧ c.nodeId ≤ m.nodeId)

lemma notWorse_refl (m : AutoFailoverNode) : notWorse m m :=
  Or.inr ⟨rfl, le_refl _⟩

lemma notWorse_trans {m x y : AutoFailoverNode}
    (h1 : notWorse m x) (h2 : notWorse x y) : notWorse m y := by
  unfold notWorse at h1 h2 ⊢
  omega

lemma betterCandidate_mem (a b : AutoFailoverNode) :
    betterCandidate a b = a ∨ betterCandidate a b = b := by
  unfold betterCandidate
  by_cases h1 : a.candidatePriority < b.candidatePriority
  · rw [if_pos h1]
    exact Or.inr rfl
  · rw [if_neg h1]
    by_cases h2 : b.candidatePriority = a.candidatePriority ∧ b.nodeId < a.nodeId
    · rw [if_pos h2]
      exact Or.inr rfl
    · rw [if_neg h2]
      exact Or.inl rfl

lemma betterCandidate_left (a b : AutoFailoverNode) :
    notWorse a (betterCandidate a b) := by
  unfold betterCandidate notWorse
  by_cases h1 : a.candidatePriority < b.candidatePriority
  · rw [if_pos h1]
    omega
  · rw [if_neg h1]
    by_cases h2 : b.candidatePriority = a.candidatePriority ∧ b.nodeId < a.nodeId
    · rw [if_pos h2]
      omega
    · rw [if_neg h2]
      omega

lemma betterCandidate_right (a b : AutoFailoverNode) :
    notWorse b (betterCandidate a b) := by
  unfold betterCandidate notWorse
  by_cases h1 : a.candidatePriority < b.candidatePriority
  · rw [if_pos h1]
    omega
  · rw [if_neg h1]
    by_cases h2 : b.candidatePriority = a.candidatePriority ∧ b.nodeId < a.nodeId
    · rw [if_pos h2]
      omega
    · rw [if_neg h2]
      push_neg at h2
      omega

lemma foldl_betterCandidate_spec (xs : List AutoFailoverNode) (x : AutoFailoverNode) :
    (xs.foldl betterCandidate x = x ∨ xs.foldl betterCandidate x ∈ xs)
    ∧ notWorse x (xs.foldl betterCandidate x)
    ∧ ∀ m ∈ xs, notWorse m (xs.foldl betterCandidate x) := by
  induction xs generalizing x with
  | nil =>
    refine ⟨Or.inl rfl, notWorse_refl x, ?_⟩
    intro m hm
    exact absurd hm (List.not_mem_nil m)
  | cons y ys ih =>
    obtain ⟨hmem, hacc, hall⟩ := ih (betterCandidate x y)
    rw [List.foldl_cons]
    refine ⟨?_, ?_, ?_⟩
    · rcases hmem with h | h
      · rcases betterCandidate_mem x y with h2 | h2
        · exact Or.inl (by rw [h, h2])
        · refine Or.inr ?_
          rw [h, h2]
          exact List.mem_cons_self y ys
      · exact Or.inr (List.mem_cons_of_mem y h)
    · exact notWorse_trans (betterCandidate_left x y) hacc
    · intro m hm
      rcases List.mem_cons.mp hm with h | h
      · rw [h]
        exact notWorse_trans (betterCandidate_right x y) hacc
      · exact hall m h

/-- Selected candidate characterization: it belongs to the group, is
eligible, and is preferred to every eligible node of the group. -/
lemma selectCandidate_spec (nodes : List AutoFailoverNode) (c : AutoFailoverNode)
    (h : selectCandidate nodes = some c) :
    c ∈ nodes ∧ isEligibleCandidate c = true
      ∧ ∀ m ∈ nodes, isEligibleCandidate m = true → notWorse m c := by
  unfold selectCandidate at h
  cases heq : nodes.filter isEligibleCandidate with
  | nil =>
    rw [heq] at h
    exact absurd h (by simp)
  | cons x xs =>
    rw [heq] at h
    injection h with h
    obtain ⟨hmem, hacc, hall⟩ := foldl_betterCandidate_spec xs x
    have hcfil : c ∈ nodes.filter isEligibleCandidate := by
      rw [heq, ← h]
      rcases hmem with h2 | h2
      · rw [h2]
        exact List.mem_cons_self x xs
      · exact List.mem_cons_of_mem x h2
    have hcnodes := List.mem_filter.mp hcfil
    refine ⟨hcnodes.1, hcnodes.2, ?_⟩
    intro m hm hem
    have hmfil : m ∈ nodes.filter isEligibleCandidate := List.mem_filter.mpr ⟨hm, hem⟩
    rw [heq] at hmfil
    rcases List.mem_cons.mp hmfil with h2 | h2
    · rw [h2, ← h]
      exact hacc
    · rw [← h]
      exact hall m h2

/-- C2: with at least two eligible standbys present, candidate selection
returns an eligible node of the group that every eligible node loses to:
strictly lower priority, or equal priority and a node id no smaller; the
selection is a pure function of the snapshot, hence deterministic. -/
theorem c2_candidate_selection (nodes : List AutoFailoverNode)
    (a b : AutoFailoverNode) (ha : a ∈ nodes) (_hb : b ∈ nodes)
    (hea : isEligibleCandidate a = true) (_heb : isEligibleCandidate b = true)
    (_hab : a ≠ b) :
    ∃ c, selectCandidate nodes = some c ∧ c ∈ nodes
      ∧ isEligibleCandidate c = true
      ∧ ∀ m ∈ nodes, isEligibleCandidate m = true →
          m.candidatePriority < c.candidatePriority
            ∨ (m.candidatePriority = c.candidatePriority ∧ c.nodeId ≤ m.nodeId) := by
  obtain ⟨c, hc⟩ : ∃ c, selectCandidate nodes = some c := by
    unfold selectCandidate
    cases heq : nodes.filter isEligibleCandidate with
    | nil =>
      have : a ∈ nodes.filter isEligibleCandidate := List.mem_filter.mpr ⟨ha, hea⟩
      rw [heq] at this
      exact absurd this (List.not_mem_nil a)
    | cons x xs => exact ⟨_, rfl⟩
  obtain ⟨hmem, helig, hbest⟩ := selectCandidate_spec nodes c hc
  exact ⟨c, hc, hmem, helig, fun m hm hem => hbest m hm hem⟩

/-- Closed witness for candidate selection: two eligible standbys of equal
priority, the lower node id wins. -/
theorem c2_candidate_selection_witness :
    ∃ c, selectCandidate
        [mkNode "s1" 2 ReplicationState.secondary ReplicationState.secondary
           NodeHealthState.good SyncState.SYNC_STATE_QUORUM 40 100 true,
         mkNode "s2" 3 ReplicationState.secondary ReplicationState.secondary
           NodeHealthState.good SyncState.SYNC_STATE_SYNC 45 100 true] = some c
      ∧ c ∈ [mkNode "s1" 2 ReplicationState.secondary ReplicationState.secondary
           NodeHealthState.good SyncState.SYNC_STATE_QUORUM 40 100 true,
         mkNode "s2" 3 ReplicationState.secondary ReplicationState.secondary
           NodeHealthState.good SyncState.SYNC_STATE_SYNC 45 100 true]
      ∧ isEligibleCandidate c = true
      ∧ ∀ m ∈ [mkNode "s1" 2 ReplicationState.secondary ReplicationState.secondary
           NodeHealthState.good SyncState.SYNC_STATE_QUORUM 40 100 true,
         mkNode "s2" 3 ReplicationState.secondary ReplicationState.secondary
           NodeHealthState.good SyncState.SYNC_STATE_SYNC 45 100 true],
          isEligibleCandidate m = true →
          m.candidatePriority < c.candidatePriority
            ∨ (m.candidatePriority = c.candidatePriority ∧ c.nodeId ≤ m.nodeId) :=
  c2_candidate_selection
    [mkNode "s1" 2 ReplicationState.secondary ReplicationState.secondary
       NodeHealthState.good SyncState.SYNC_STATE_QUORUM 40 100 true,
     mkNode "s2" 3 ReplicationState.secondary ReplicationState.secondary
       NodeHealthState.good SyncState.SYNC_STATE_SYNC 45 100 true]
    (mkNode "s1" 2 ReplicationState.secondary ReplicationState.secondary
       NodeHealthState.good SyncState.SYNC_STATE_QUORUM 40 100 true)
    (mkNode "s2" 3 ReplicationState.secondary ReplicationState.secondary
       NodeHealthState.good SyncState.SYNC_STATE_SYNC 45 100 true)
    (by decide) (by decide) (by decide) (by decide) (by decide)

/-- Per-node LSN monotonicity: applying a state report never decreases the
stored reported LSN. -/
lemma applyNodeStateReport_lsn_le (n : AutoFailoverNode)
    (rs : ReplicationState) (run : Bool) (ss : SyncState) (lsn : Nat) (rt : Int) :
    n.reportedLSN ≤ (applyNodeStateReport n rs run ss lsn rt).reportedLSN := by
  unfold applyNodeStateReport
  by_cases h1 : rt < n.reportTime
  · rw [if_pos h1]
  · rw [if_neg h1]
    by_cases h2 : lsn < n.reportedLSN
    · rw [if_pos h2]
    · rw [if_neg h2]
      show n.reportedLSN ≤ lsn
      omega

/-- C4: for every node, the stored reported LSN is monotonically
non-decreasing across ReportAutoFailoverNodeState calls: after the call,
each stored record carries a reported LSN at least as large as before. -/
theorem c4_reported_lsn_monotone
    (store : List AutoFailoverNode) (nodeName : String) (nodePort : Int)
    (rs : ReplicationState) (run : Bool) (ss : SyncState) (lsn : Nat) (rt : Int) :
    List.Forall₂ (fun a b => a.reportedLSN ≤ b.reportedLSN) store
      (ReportAutoFailoverNodeState store nodeName nodePort rs run ss lsn rt).1 := by
  unfold ReportAutoFailoverNodeState
  simp only
  induction store with
  | nil => exact List.Forall₂.nil
  | cons n tl ih =>
    rw [List.map_cons]
    refine List.Forall₂.cons ?_ ih
    by_cases h : (n.nodeName == nodeName && n.nodePort == nodePort) = true
    · rw [if_pos h]
      exact applyNodeStateReport_lsn_le n rs run ss lsn rt
    · rw [if_neg h]

/-- C6: a state report whose report timestamp is older than the stored
report timestamp of every matching node is a no-op: the stored node records
are unchanged and the call reports success, not an error. -/
theorem c6_stale_report_noop
    (store : List AutoFailoverNode) (nodeName : String) (nodePort : Int)
    (rs : ReplicationState) (run : Bool) (ss : SyncState) (lsn : Nat) (rt : Int)
    (hstale : ∀ n ∈ store, n.nodeName = nodeName → n.nodePort = nodePort →
        rt < n.reportTime) :
    ReportAutoFailoverNodeState store nodeName nodePort rs run ss lsn rt
      = (store, Except.ok ()) := by
  unfold ReportAutoFailoverNodeState
  refine Prod.ext ?_ rfl
  show store.map _ = store
  have : ∀ n ∈ store,
      (if n.nodeName == nodeName && n.nodePort == nodePort then
        applyNodeStateReport n rs run ss lsn rt
      else n) = id n := by
    intro n hn
    by_cases h : (n.nodeName == nodeName && n.nodePort == nodePort) = true
    · rw [if_pos h]
      have hname : n.nodeName = nodeName := by
        have := h
        simp [Bool.and_eq_true, beq_iff_eq] at this
        exact this.1
      have hport : n.nodePort = nodePort := by
        have := h
        simp [Bool.and_eq_true, beq_iff_eq] at this
        exact this.2
      have hrt := hstale n hn hname hport
      unfold applyNodeStateReport
      rw [if_pos hrt]
      rfl
    · rw [if_neg h]
      rfl
  rw [List.map_congr_left this, List.map_id]

/-- Closed witness for the stale-report no-op theorem at a concrete store. -/
theorem c6_stale_report_noop_witness :
    ReportAutoFailoverNodeState
        [mkNode "a" 1 ReplicationState.primary ReplicationState.primary
           NodeHealthState.good SyncState.SYNC_STATE_SYNC 50 100 true]
        "a" 5432 ReplicationState.secondary true SyncState.SYNC_STATE_SYNC 60 5
      = ([mkNode "a" 1 ReplicationState.primary ReplicationState.primary
           NodeHealthState.good SyncState.SYNC_STATE_SYNC 50 100 true],
         Except.ok ()) :=
  c6_stale_report_noop _ _ _ _ _ _ _ _ (by decide)

/-- C7: after a successful AddAutoFailoverNode, a second call with the same
formation, name and port fails with DuplicateNode and returns the stored
node set unchanged. -/
theorem c7_duplicate_node
    (store store2 : List AutoFailoverNode) (id : Int)
    (formationId : String) (groupId groupId2 : Int)
    (nodeName : String) (nodePort : Int)
    (gs rs gs2 rs2 : ReplicationState) (cp cp2 : Int) (q q2 : Bool)
    (h : AddAutoFailoverNode store formationId groupId nodeName nodePort gs rs cp q
        = (store2, Except.ok id)) :
    AddAutoFailoverNode store2 formationId groupId2 nodeName nodePort gs2 rs2 cp2 q2
      = (store2, Except.error MonitorError.DuplicateNode) := by
  unfold AddAutoFailoverNode at h ⊢
  by_cases hdup : (store.any (fun n =>
      n.formationId == formationId
        && n.nodeName == nodeName && n.nodePort == nodePort)) = true
  · rw [if_pos hdup] at h
    exact absurd (congrArg Prod.snd h) (by simp)
  · rw [if_neg hdup] at h
    injection h with h1 h2
    have hcond : (store2.any fun n =>
        n.formationId == formationId
          && n.nodeName == nodeName && n.nodePort == nodePort) = true := by
      rw [← h1]
      simp
    rw [if_pos hcond]

/-- Closed witness for the duplicate-node theorem at a concrete store. -/
theorem c7_duplicate_node_witness :
    AddAutoFailoverNode
        (AddAutoFailoverNode [] "default" 0 "a" 5432
          ReplicationState.init ReplicationState.init 100 true).1
        "default" 0 "a" 5432 ReplicationState.init ReplicationState.init 50 false
      = ((AddAutoFailoverNode [] "default" 0 "a" 5432
          ReplicationState.init ReplicationState.init 100 true).1,
         Except.error MonitorError.DuplicateNode) :=
  c7_duplicate_node [] _ 1 "default" 0 0 "a" 5432
    ReplicationState.init ReplicationState.init
    ReplicationState.init ReplicationState.init 100 50 true false (by rfl)

/-- C8: removing a node that is the sole primary-capable node of its group
(whether its capability comes from a primary-like goal state or from
candidate eligibility), and that is not being deliberately decommissioned
through the state machine, fails with NodeInUse and leaves the stored node
set unchanged. -/
theorem c8_remove_node_in_use
    (store : List AutoFailoverNode) (nodeName : String) (nodePort : Int)
    (n : AutoFailoverNode)
    (hfind : store.find? (fun m => m.nodeName == nodeName && m.nodePort == nodePort)
        = some n)
    (_hcapn : primaryCapable n = true)
    (hdec : isDecommissioned n.goalState = false)
    (hcap : ∀ m ∈ store, m.formationId = n.formationId → m.groupId = n.groupId →
        ¬(m.nodeName = nodeName ∧ m.nodePort = nodePort) → primaryCapable m = false) :
    RemoveAutoFailoverNode store nodeName nodePort
      = (store, Except.error MonitorError.NodeInUse) := by
  unfold RemoveAutoFailoverNode
  rw [hfind]
  dsimp only
  simp [hdec]
  intro x hx h1 h2 h3
  refine hcap x hx h1 h2 ?_
  intro hc
  rcases h3 with h3 | h3
  · exact h3 hc.1
  · exact h3 hc.2

/-- Closed witness for the node-in-use removal theorem: a two-node group
whose sole primary is removed while the standby is not primary-capable. -/
theorem c8_remove_node_in_use_witness :
    RemoveAutoFailoverNode
        [mkNode "p" 1 ReplicationState.primary ReplicationState.primary
           NodeHealthState.good SyncState.SYNC_STATE_SYNC 50 100 true,
         mkNode "s" 2 ReplicationState.secondary ReplicationState.secondary
           NodeHealthState.bad SyncState.SYNC_STATE_ASYNC 40 100 false]
        "p" 5432
      = ([mkNode "p" 1 ReplicationState.primary ReplicationState.primary
           NodeHealthState.good SyncState.SYNC_STATE_SYNC 50 100 true,
          mkNode "s" 2 ReplicationState.secondary ReplicationState.secondary
            NodeHealthState.bad SyncState.SYNC_STATE_ASYNC 40 100 false],
         Except.error MonitorError.NodeInUse) :=
  c8_remove_node_in_use _ "p" 5432
    (mkNode "p" 1 ReplicationState.primary ReplicationState.primary
      NodeHealthState.good SyncState.SYNC_STATE_SYNC 50 100 true)
    (by decide) (by decide) (by decide) (by decide)

/-- C9: SyncStateFromString maps each of the four lowercase replication
tokens to its SyncState value, and every other string to
SYNC_STATE_UNKNOWN rather than failing. -/
theorem c9_syncstate_from_string_total :
    SyncStateFromString "sync" = SyncState.SYNC_STATE_SYNC
    ∧ SyncStateFromString "async" = SyncState.SYNC_STATE_ASYNC
    ∧ SyncStateFromString "quorum" = SyncState.SYNC_STATE_QUORUM
    ∧ SyncStateFromString "potential" = SyncState.SYNC_STATE_POTENTIAL
    ∧ ∀ s : String, s ≠ "sync" → s ≠ "async" → s ≠ "quorum" → s ≠ "potential" →
        SyncStateFromString s = SyncState.SYNC_STATE_UNKNOWN := by
  refine ⟨rfl, rfl, rfl, rfl, ?_⟩
  intro s h1 h2 h3 h4
  unfold SyncStateFromString
  rw [if_neg h1, if_neg h2, if_neg h3, if_neg h4]

/-- Closed witness for the tolerant-parser theorem at an unrecognized
token. -/
theorem c9_syncstate_from_string_total_witness :
    SyncStateFromString "garbage" = SyncState.SYNC_STATE_UNKNOWN :=
  c9_syncstate_from_string_total.2.2.2.2 "garbage"
    (by decide) (by decide) (by decide) (by decide)

/-- Eligibility requires the replication quorum flag. -/
lemma isEligibleCandidate_quorum (n : AutoFailoverNode)
    (h : isEligibleCandidate n = true) : n.replicationQuorum = true := by
  unfold isEligibleCandidate at h
  simp only [Bool.and_eq_true] at h
  exact h.2

/-- Eligibility requires a standby-like reported state. -/
lemma isEligibleCandidate_standby (n : AutoFailoverNode)
    (h : isEligibleCandidate n = true) : isStandbyLike n.reportedState = true := by
  unfold isEligibleCandidate at h
  simp only [Bool.and_eq_true] at h
  exact h.1.1.1

/-- Eligibility requires good health. -/
lemma isEligibleCandidate_health (n : AutoFailoverNode)
    (h : isEligibleCandidate n = true) : n.health = NodeHealthState.good := by
  unfold isEligibleCandidate at h
  simp only [Bool.and_eq_true, beq_iff_eq] at h
  exact h.1.1.2

/-- C3: a standby whose replicationQuorum flag is false is never assigned a
promotion-track goal state by the decision engine, whatever its health,
sync state or LSN; and in a two-node group whose only standby has
quorum=false, the engine holds the failed primary as-is instead of
promoting the standby. -/
theorem c3_quorum_false_never_promoted :
    (∀ (t : Bool) (g : Nat) (nodes : List AutoFailoverNode) (n : AutoFailoverNode),
        n.replicationQuorum = false → promotionTrack n.goalState = false →
        promotionTrack (nextGoal t g nodes n) = false)
    ∧ ∀ (t : Bool) (g : Nat) (p s : AutoFailoverNode),
        p.goalState = ReplicationState.primary →
        p.reportedState = ReplicationState.primary →
        s.goalState = ReplicationState.secondary →
        s.replicationQuorum = false →
        decisionEngine t g [p, s] = [p, s] := by
  constructor
  · intro t g nodes n hq htrack
    unfold nextGoal
    by_cases h1 : failoverTrigger t nodes
        ∧ isPrimaryLike n.goalState = true ∧ n.health = NodeHealthState.bad
    · rw [if_pos h1]
      rfl
    · rw [if_neg h1]
      by_cases h2 : failoverTrigger t nodes
          ∧ selectedId nodes = some n.nodeId ∧ isEligibleCandidate n = true
      · exact absurd (isEligibleCandidate_quorum n h2.2.2)
          (by rw [hq]; exact Bool.noConfusion)
      · rw [if_neg h2]
        by_cases h3 : n.goalState = ReplicationState.prepare_promotion
            ∧ n.reportedState = ReplicationState.prepare_promotion
            ∧ n.health = NodeHealthState.good
            ∧ g ≤ n.reportedLSN
            ∧ hasPrimaryLikeGoal nodes = false
        · exact absurd htrack (by rw [h3.1]; exact Bool.noConfusion)
        · rw [if_neg h3]
          by_cases h4 : n.goalState = ReplicationState.wait_primary
              ∧ n.reportedState = ReplicationState.wait_primary
              ∧ n.health = NodeHealthState.good
              ∧ otherPrimaryLike nodes n.nodeId = false
              ∧ standbyConfirmed nodes n.nodeId = true
          · exact absurd htrack (by rw [h4.1]; exact Bool.noConfusion)
          · rw [if_neg h4]
            exact htrack
  · intro t g p s hgp hrp hgs hsq
    have heligp : isEligibleCandidate p = false := by
      simp [isEligibleCandidate, hrp, isStandbyLike]
    have heligs : isEligibleCandidate s = false := by
      simp [isEligibleCandidate, hsq]
    have hsel : selectedId [p, s] = none := by
      unfold selectedId selectCandidate
      simp [List.filter, heligp, heligs]
    have htrig : ¬ failoverTrigger t [p, s] := by
      intro htr
      rcases htr with ⟨_, _, hsome, _⟩
      rw [hsel] at hsome
      exact Bool.noConfusion hsome
    have hp : nextGoal t g [p, s] p = p.goalState := by
      unfold nextGoal
      rw [if_neg (fun hc => htrig hc.1), if_neg (fun hc => htrig hc.1),
        if_neg, if_neg]
      · intro hc
        rw [hgp] at hc
        exact ReplicationState.noConfusion hc.1
      · intro hc
        rw [hgp] at hc
        exact ReplicationState.noConfusion hc.1
    have hs : nextGoal t g [p, s] s = s.goalState := by
      unfold nextGoal
      rw [if_neg (fun hc => htrig hc.1), if_neg (fun hc => htrig hc.1),
        if_neg, if_neg]
      · intro hc
        rw [hgs] at hc
        exact ReplicationState.noConfusion hc.1
      · intro hc
        rw [hgs] at hc
        exact ReplicationState.noConfusion hc.1
    show [updGoal t g [p, s] p, updGoal t g [p, s] s] = [p, s]
    unfold updGoal
    rw [hp, hs]

/-- Closed witness for the quorum=false boundary: an async standby with
quorum off in a two-node group with a failed primary, on both conjuncts. -/
theorem c3_quorum_false_never_promoted_witness :
    (promotionTrack (nextGoal true 0
        [mkNode "p" 1 ReplicationState.primary ReplicationState.primary
           NodeHealthState.bad SyncState.SYNC_STATE_SYNC 50 100 true,
         mkNode "s" 2 ReplicationState.secondary ReplicationState.secondary
           NodeHealthState.good SyncState.SYNC_STATE_ASYNC 50 100 false]
        (mkNode "s" 2 ReplicationState.secondary ReplicationState.secondary
           NodeHealthState.good SyncState.SYNC_STATE_ASYNC 50 100 false)) = false)
    ∧ decisionEngine true 0
        [mkNode "p" 1 ReplicationState.primary ReplicationState.primary
           NodeHealthState.bad SyncState.SYNC_STATE_SYNC 50 100 true,
         mkNode "s" 2 ReplicationState.secondary ReplicationState.secondary
           NodeHealthState.good SyncState.SYNC_STATE_ASYNC 50 100 false]
      = [mkNode "p" 1 ReplicationState.primary ReplicationState.primary
           NodeHealthState.bad SyncState.SYNC_STATE_SYNC 50 100 true,
         mkNode "s" 2 ReplicationState.secondary ReplicationState.secondary
           NodeHealthState.good SyncState.SYNC_STATE_ASYNC 50 100 false] :=
  ⟨c3_quorum_false_never_promoted.1 true 0
      [mkNode "p" 1 ReplicationState.primary ReplicationState.primary
         NodeHealthState.bad SyncState.SYNC_STATE_SYNC 50 100 true,
       mkNode "s" 2 ReplicationState.secondary ReplicationState.secondary
         NodeHealthState.good SyncState.SYNC_STATE_ASYNC 50 100 false]
      (mkNode "s" 2 ReplicationState.secondary ReplicationState.secondary
         NodeHealthState.good SyncState.SYNC_STATE_ASYNC 50 100 false)
      (by decide) (by decide),
   c3_quorum_false_never_promoted.2 true 0
      (mkNode "p" 1 ReplicationState.primary ReplicationState.primary
         NodeHealthState.bad SyncState.SYNC_STATE_SYNC 50 100 true)
      (mkNode "s" 2 ReplicationState.secondary ReplicationState.secondary
         NodeHealthState.good SyncState.SYNC_STATE_ASYNC 50 100 false)
      rfl rfl rfl rfl⟩

lemma failoverTrigger_iff (t : Bool) (s : List AutoFailoverNode) :
    failoverTrigger t s ↔
      (t = true ∧ promotionInFlight s = false ∧ (selectedId s).isSome = true
        ∧ ∃ p, p ∈ s ∧ isPrimaryLike p.goalState = true
            ∧ p.health = NodeHealthState.bad) :=
  Iff.rfl

/-- When no promotion is in flight, no member has a prepare_promotion or
wait_primary goal. -/
lemma no_promo_goal {s : List AutoFailoverNode} (h : promotionInFlight s = false)
    {n : AutoFailoverNode} (hn : n ∈ s) :
    n.goalState ≠ ReplicationState.prepare_promotion
      ∧ n.goalState ≠ ReplicationState.wait_primary := by
  unfold promotionInFlight at h
  rw [List.any_eq_false] at h
  have hno := h n hn
  constructor
  · intro he
    exact hno (by rw [he]; rfl)
  · intro he
    exact hno (by rw [he]; rfl)

lemma hasPL_of_mem {s : List AutoFailoverNode} {n : AutoFailoverNode}
    (hn : n ∈ s) (h : isPrimaryLike n.goalState = true) :
    hasPrimaryLikeGoal s = true := by
  unfold hasPrimaryLikeGoal
  rw [List.any_eq_true]
  exact ⟨n, hn, h⟩

/-- Characterization of the engine branches that can leave a node with a
primary-like or prepare_promotion goal state. -/
lemma Qpred_nextGoal (t : Bool) (g : Nat) (s : List AutoFailoverNode)
    (n : AutoFailoverNode) (hn : n ∈ s) (hQ : Qpred (updGoal t g s n)) :
    (failoverTrigger t s ∧ selectedId s = some n.nodeId
        ∧ isEligibleCandidate n = true)
    ∨ (¬ failoverTrigger t s ∧ n.goalState = ReplicationState.prepare_promotion
        ∧ hasPrimaryLikeGoal s = false)
    ∨ (¬ failoverTrigger t s ∧ n.goalState = ReplicationState.wait_primary)
    ∨ (nextGoal t g s n = n.goalState ∧ Qpred n
        ∧ ¬(failoverTrigger t s ∧ isPrimaryLike n.goalState = true
            ∧ n.health = NodeHealthState.bad)) := by
  have hQ2 : isPrimaryLike (nextGoal t g s n) = true
      ∨ nextGoal t g s n = ReplicationState.prepare_promotion := hQ
  by_cases h1 : failoverTrigger t s ∧ isPrimaryLike n.goalState = true
      ∧ n.health = NodeHealthState.bad
  · have hng : nextGoal t g s n = ReplicationState.draining := by
      unfold nextGoal
      rw [if_pos h1]
    rw [hng] at hQ2
    rcases hQ2 with h | h
    · exact absurd h (by decide)
    · exact absurd h (by decide)
  by_cases h2 : failoverTrigger t s ∧ selectedId s = some n.nodeId
      ∧ isEligibleCandidate n = true
  · exact Or.inl h2
  by_cases h3 : n.goalState = ReplicationState.prepare_promotion
      ∧ n.reportedState = ReplicationState.prepare_promotion
      ∧ n.health = NodeHealthState.good ∧ g ≤ n.reportedLSN
      ∧ hasPrimaryLikeGoal s = false
  · refine Or.inr (Or.inl ⟨?_, h3.1, h3.2.2.2.2⟩)
    intro htr
    exact (no_promo_goal ((failoverTrigger_iff t s).mp htr).2.1 hn).1 h3.1
  by_cases h4 : n.goalState = ReplicationState.wait_primary
      ∧ n.reportedState = ReplicationState.wait_primary
      ∧ n.health = NodeHealthState.good
      ∧ otherPrimaryLike s n.nodeId = false
      ∧ standbyConfirmed s n.nodeId = true
  · refine Or.inr (Or.inr (Or.inl ⟨?_, h4.1⟩))
    intro htr
    exact (no_promo_goal ((failoverTrigger_iff t s).mp htr).2.1 hn).2 h4.1
  · have hng : nextGoal t g s n = n.goalState := by
      unfold nextGoal
      rw [if_neg h1, if_neg h2, if_neg h3, if_neg h4]
    rw [hng] at hQ2
    exact Or.inr (Or.inr (Or.inr ⟨hng, hQ2, h1⟩))

/-- A fired failover trigger is incompatible with a node that kept a Qpred
goal without being the demoted failed primary, assuming the invariant. -/
lemma trigger_else_absurd {t : Bool} {s : List AutoFailoverNode}
    {b : AutoFailoverNode} (htr : failoverTrigger t s) (hb : b ∈ s)
    (hQb : Qpred b)
    (hnb : ¬(failoverTrigger t s ∧ isPrimaryLike b.goalState = true
        ∧ b.health = NodeHealthState.bad))
    (hq : atMostOneQ s) : False := by
  obtain ⟨-, hpromo, -, p, hp, hPL, hbad⟩ := (failoverTrigger_iff t s).mp htr
  rcases hQb with hQb | hQb
  · have hpb := hq p hp b hb (Or.inl hPL) (Or.inl hQb)
    refine hnb ⟨htr, hQb, ?_⟩
    rw [← hpb]
    exact hbad
  · exact (no_promo_goal hpromo hb).1 hQb

/-- One decision engine invocation preserves the at-most-one-Qpred
invariant. -/
lemma decisionEngine_atMostOneQ (t : Bool) (g : Nat) (s : List AutoFailoverNode)
    (hnd : (s.map (fun n => n.nodeId)).Nodup) (hq : atMostOneQ s) :
    atMostOneQ (decisionEngine t g s) := by
  intro x hx y hy hQx hQy
  unfold decisionEngine at hx hy
  rw [List.mem_map] at hx hy
  obtain ⟨a, ha, rfl⟩ := hx
  obtain ⟨b, hb, rfl⟩ := hy
  suffices hab : a = b by rw [hab]
  have hinj := List.inj_on_of_nodup_map hnd
  have hda := Qpred_nextGoal t g s a ha hQx
  have hdb := Qpred_nextGoal t g s b hb hQy
  rcases hda with hda | hda | hda | hda <;> rcases hdb with hdb | hdb | hdb | hdb
  · refine hinj ha hb (Option.some.inj ?_)
    rw [← hda.2.1, ← hdb.2.1]
  · exact absurd hda.1 hdb.1
  · exact absurd hda.1 hdb.1
  · exact (trigger_else_absurd hda.1 hb hdb.2.1 hdb.2.2 hq).elim
  · exact absurd hdb.1 hda.1
  · exact hq a ha b hb (Or.inr hda.2.1) (Or.inr hdb.2.1)
  · refine absurd (hasPL_of_mem hb (by rw [hdb.2]; rfl)) ?_
    intro hh
    rw [hda.2.2] at hh
    exact Bool.noConfusion hh
  · rcases hdb.2.1 with hQb | hQb
    · refine absurd (hasPL_of_mem hb hQb) ?_
      intro hh
      rw [hda.2.2] at hh
      exact Bool.noConfusion hh
    · exact hq a ha b hb (Or.inr hda.2.1) (Or.inr hQb)
  · exact absurd hdb.1 hda.1
  · refine absurd (hasPL_of_mem ha (by rw [hda.2]; rfl)) ?_
    intro hh
    rw [hdb.2.2] at hh
    exact Bool.noConfusion hh
  · exact hq a ha b hb (Or.inl (by rw [hda.2]; rfl)) (Or.inl (by rw [hdb.2]; rfl))
  · exact hq a ha b hb (Or.inl (by rw [hda.2]; rfl)) hdb.2.1
  · exact (trigger_else_absurd hdb.1 ha hda.2.1 hda.2.2 hq).elim
  · rcases hda.2.1 with hQa | hQa
    · refine absurd (hasPL_of_mem ha hQa) ?_
      intro hh
      rw [hdb.2.2] at hh
      exact Bool.noConfusion hh
    · exact hq a ha b hb (Or.inr hQa) (Or.inr hdb.2.1)
  · exact hq a ha b hb hda.2.1 (Or.inl (by rw [hdb.2]; rfl))
  · exact hq a ha b hb hda.2.1 hdb.2.1

lemma applyNodeStateReport_goalState (n : AutoFailoverNode)
    (rs : ReplicationState) (run : Bool) (ss : SyncState) (lsn : Nat) (rt : Int) :
    (applyNodeStateReport n rs run ss lsn rt).goalState = n.goalState := by
  unfold applyNodeStateReport
  by_cases h1 : rt < n.reportTime
  · rw [if_pos h1]
  · rw [if_neg h1]
    by_cases h2 : lsn < n.reportedLSN
    · rw [if_pos h2]
    · rw [if_neg h2]

lemma applyNodeStateReport_nodeId (n : AutoFailoverNode)
    (rs : ReplicationState) (run : Bool) (ss : SyncState) (lsn : Nat) (rt : Int) :
    (applyNodeStateReport n rs run ss lsn rt).nodeId = n.nodeId := by
  unfold applyNodeStateReport
  by_cases h1 : rt < n.reportTime
  · rw [if_pos h1]
  · rw [if_neg h1]
    by_cases h2 : lsn < n.reportedLSN
    · rw [if_pos h2]
    · rw [if_neg h2]

/-- A per-node map that does not change goal states preserves the
at-most-one-Qpred invariant. -/
lemma atMostOneQ_map (s : List AutoFailoverNode)
    (f : AutoFailoverNode → AutoFailoverNode)
    (hgoal : ∀ n, (f n).goalState = n.goalState)
    (hq : atMostOneQ s) : atMostOneQ (s.map f) := by
  intro x hx y hy hQx hQy
  rw [List.mem_map] at hx hy
  obtain ⟨a, ha, rfl⟩ := hx
  obtain ⟨b, hb, rfl⟩ := hy
  have hQa : Qpred a := by
    unfold Qpred at hQx ⊢
    rw [hgoal a] at hQx
    exact hQx
  have hQb : Qpred b := by
    unfold Qpred at hQy ⊢
    rw [hgoal b] at hQy
    exact hQy
  rw [hq a ha b hb hQa hQb]

/-- A per-node map that does not change node ids preserves distinctness of
node ids. -/
lemma nodup_ids_map (s : List AutoFailoverNode)
    (f : AutoFailoverNode → AutoFailoverNode)
    (hid : ∀ n, (f n).nodeId = n.nodeId)
    (h : (s.map (fun n => n.nodeId)).Nodup) :
    ((s.map f).map (fun n => n.nodeId)).Nodup := by
  rw [List.map_map]
  have heq : s.map ((fun n : AutoFailoverNode => n.nodeId) ∘ f)
      = s.map (fun n => n.nodeId) :=
    List.map_congr_left (fun a _ => hid a)
  rw [heq]
  exact h

/-- Every serialized monitor operation preserves the monitor invariant. -/
lemma applyStep_monitorInv (st : MonitorStep) (s : List AutoFailoverNode)
    (h : monitorInv s) : monitorInv (applyStep st s) := by
  obtain ⟨hnd, hq⟩ := h
  cases st with
  | report nm port rs run ss lsn rt =>
    refine ⟨nodup_ids_map s _ ?_ hnd, atMostOneQ_map s _ ?_ hq⟩
    · intro n
      by_cases hc : (n.nodeName == nm && n.nodePort == port) = true
      · rw [if_pos hc]
        exact applyNodeStateReport_nodeId n rs run ss lsn rt
      · rw [if_neg hc]
    · intro n
      by_cases hc : (n.nodeName == nm && n.nodePort == port) = true
      · rw [if_pos hc]
        exact applyNodeStateReport_goalState n rs run ss lsn rt
      · rw [if_neg hc]
  | health nm port hh tt =>
    refine ⟨nodup_ids_map s _ ?_ hnd, atMostOneQ_map s _ ?_ hq⟩
    · intro n
      by_cases hc : (n.nodeName == nm && n.nodePort == port) = true
      · rw [if_pos hc]
      · rw [if_neg hc]
    · intro n
      by_cases hc : (n.nodeName == nm && n.nodePort == port) = true
      · rw [if_pos hc]
      · rw [if_neg hc]
  | repl nm port cp qq =>
    refine ⟨nodup_ids_map s _ ?_ hnd, atMostOneQ_map s _ ?_ hq⟩
    · intro n
      by_cases hc : (n.nodeName == nm && n.nodePort == port) = true
      · rw [if_pos hc]
      · rw [if_neg hc]
    · intro n
      by_cases hc : (n.nodeName == nm && n.nodePort == port) = true
      · rw [if_pos hc]
      · rw [if_neg hc]
  | engine t g =>
    refine ⟨?_, decisionEngine_atMostOneQ t g s hnd hq⟩
    show ((s.map (updGoal t g s)).map (fun n => n.nodeId)).Nodup
    exact nodup_ids_map s _ (fun n => rfl) hnd

/-- Any sequence of serialized monitor operations preserves the monitor
invariant. -/
lemma runSteps_monitorInv (steps : List MonitorStep) (s : List AutoFailoverNode)
    (h : monitorInv s) : monitorInv (runSteps steps s) := by
  induction steps generalizing s with
  | nil => exact h
  | cons st tl ih => exact ih (applyStep st s) (applyStep_monitorInv st s h)

/-- C1: from any group snapshot satisfying the monitor invariant (distinct
node ids, at most one node with a primary-like or prepare_promotion goal),
no sequence of report handling and decision-engine invocations ever leaves
two distinct nodes of the group with primary-like goal states. -/
theorem c1_no_dual_primary (steps : List MonitorStep)
    (s : List AutoFailoverNode) (h : monitorInv s) :
    ∀ a ∈ runSteps steps s, ∀ b ∈ runSteps steps s,
      isPrimaryLike a.goalState = true → isPrimaryLike b.goalState = true →
      a = b := by
  intro a ha b hb hpa hpb
  exact (runSteps_monitorInv steps s h).2 a ha b hb (Or.inl hpa) (Or.inl hpb)

/-- Closed witness for the no-dual-primary invariant: a two-node group run
through a failed health report and two engine invocations. -/
theorem c1_no_dual_primary_witness :
    mkNode "p" 1 ReplicationState.primary ReplicationState.primary
        NodeHealthState.good SyncState.SYNC_STATE_SYNC 50 100 true
      = mkNode "p" 1 ReplicationState.primary ReplicationState.primary
        NodeHealthState.good SyncState.SYNC_STATE_SYNC 50 100 true :=
  c1_no_dual_primary
    [MonitorStep.engine true 0,
     MonitorStep.report "p" 5432 ReplicationState.primary true
       SyncState.SYNC_STATE_SYNC 55 5,
     MonitorStep.engine true 0]
    [mkNode "p" 1 ReplicationState.primary ReplicationState.primary
       NodeHealthState.good SyncState.SYNC_STATE_SYNC 50 100 true,
     mkNode "s" 2 ReplicationState.secondary ReplicationState.secondary
       NodeHealthState.good SyncState.SYNC_STATE_QUORUM 45 100 true]
    (by decide)
    (mkNode "p" 1 ReplicationState.primary ReplicationState.primary
       NodeHealthState.good SyncState.SYNC_STATE_SYNC 50 100 true)
    (by decide)
    (mkNode "p" 1 ReplicationState.primary ReplicationState.primary
       NodeHealthState.good SyncState.SYNC_STATE_SYNC 50 100 true)
    (by decide) (by decide) (by decide)

lemma betterCandidate_updGoal (t : Bool) (g : Nat) (s : List AutoFailoverNode)
    (a b : AutoFailoverNode) :
    betterCandidate (updGoal t g s a) (updGoal t g s b)
      = updGoal t g s (betterCandidate a b) := by
  show (if a.candidatePriority < b.candidatePriority then updGoal t g s b
    else if b.candidatePriority = a.candidatePriority ∧ b.nodeId < a.nodeId
      then updGoal t g s b
    else updGoal t g s a) = updGoal t g s (betterCandidate a b)
  unfold betterCandidate
  by_cases h1 : a.candidatePriority < b.candidatePriority
  · rw [if_pos h1, if_pos h1]
  · rw [if_neg h1, if_neg h1]
    by_cases h2 : b.candidatePriority = a.candidatePriority ∧ b.nodeId < a.nodeId
    · rw [if_pos h2, if_pos h2]
    · rw [if_neg h2, if_neg h2]

lemma foldl_betterCandidate_updGoal (t : Bool) (g : Nat)
    (s : List AutoFailoverNode) (xs : List AutoFailoverNode)
    (x : AutoFailoverNode) :
    (xs.map (updGoal t g s)).foldl betterCandidate (updGoal t g s x)
      = updGoal t g s (xs.foldl betterCandidate x) := by
  induction xs generalizing x with
  | nil => rfl
  | cons y ys ih =>
    rw [List.map_cons, List.foldl_cons, List.foldl_cons, betterCandidate_updGoal]
    exact ih (betterCandidate x y)

/-- Candidate eligibility ignores goal states, so filtering commutes with
one engine pass. -/
lemma filter_elig_engine (t : Bool) (g : Nat) (s : List AutoFailoverNode) :
    (decisionEngine t g s).filter isEligibleCandidate
      = (s.filter isEligibleCandidate).map (updGoal t g s) := by
  unfold decisionEngine
  rw [List.filter_map]
  congr 1

/-- Candidate selection is unchanged by one engine pass, up to the goal
update of the selected node. -/
lemma selectCandidate_engine (t : Bool) (g : Nat) (s : List AutoFailoverNode) :
    selectCandidate (decisionEngine t g s)
      = Option.map (updGoal t g s) (selectCandidate s) := by
  unfold selectCandidate
  rw [filter_elig_engine]
  cases heq : s.filter isEligibleCandidate with
  | nil => rfl
  | cons x xs =>
    rw [List.map_cons]
    show some ((xs.map (updGoal t g s)).foldl betterCandidate (updGoal t g s x))
      = some (updGoal t g s (xs.foldl betterCandidate x))
    rw [foldl_betterCandidate_updGoal]

lemma selectedId_engine (t : Bool) (g : Nat) (s : List AutoFailoverNode) :
    selectedId (decisionEngine t g s) = selectedId s := by
  unfold selectedId
  rw [selectCandidate_engine]
  cases selectCandidate s with
  | none => rfl
  | some c => rfl

/-- The wait_primary confirmation test reads only reported states and node
ids, so it is unchanged by one engine pass. -/
lemma standbyConfirmed_engine (t : Bool) (g : Nat) (s : List AutoFailoverNode)
    (i : Int) :
    standbyConfirmed (decisionEngine t g s) i = standbyConfirmed s i := by
  unfold standbyConfirmed decisionEngine
  rw [List.any_map, List.all_map]
  rfl

lemma hasPL_engine_intro (t : Bool) (g : Nat) (s : List AutoFailoverNode)
    {p : AutoFailoverNode} (hp : p ∈ s)
    (h : isPrimaryLike (nextGoal t g s p) = true) :
    hasPrimaryLikeGoal (decisionEngine t g s) = true := by
  unfold hasPrimaryLikeGoal decisionEngine
  rw [List.any_eq_true]
  exact ⟨updGoal t g s p, List.mem_map_of_mem _ hp, h⟩

lemma otherPL_elim {s : List AutoFailoverNode} {i : Int}
    (h : otherPrimaryLike s i = true) :
    ∃ p ∈ s, (p.nodeId != i) = true ∧ isPrimaryLike p.goalState = true := by
  unfold otherPrimaryLike at h
  rw [List.any_eq_true] at h
  obtain ⟨p, hp, hcond⟩ := h
  rw [Bool.and_eq_true] at hcond
  exact ⟨p, hp, hcond.1, hcond.2⟩

lemma otherPL_engine_intro (t : Bool) (g : Nat) (s : List AutoFailoverNode)
    {i : Int} {p : AutoFailoverNode} (hp : p ∈ s)
    (hid : (p.nodeId != i) = true)
    (h : isPrimaryLike (nextGoal t g s p) = true) :
    otherPrimaryLike (decisionEngine t g s) i = true := by
  unfold otherPrimaryLike decisionEngine
  rw [List.any_eq_true]
  refine ⟨updGoal t g s p, List.mem_map_of_mem _ hp, ?_⟩
  rw [Bool.and_eq_true]
  exact ⟨hid, h⟩

lemma hasPL_elim {s : List AutoFailoverNode}
    (h : hasPrimaryLikeGoal s = true) :
    ∃ p ∈ s, isPrimaryLike p.goalState = true := by
  unfold hasPrimaryLikeGoal at h
  rw [List.any_eq_true] at h
  exact h

/-- With a promotion already in flight the failover trigger cannot fire. -/
lemma notrig_of_promo (t : Bool) {s : List AutoFailoverNode}
    {n : AutoFailoverNode} (hn : n ∈ s)
    (h : n.goalState = ReplicationState.prepare_promotion
        ∨ n.goalState = ReplicationState.wait_primary) :
    ¬ failoverTrigger t s := by
  intro htr
  have hpromo := ((failoverTrigger_iff t s).mp htr).2.1
  have hng := no_promo_goal hpromo hn
  rcases h with h | h
  · exact hng.1 h
  · exact hng.2 h

/-- A node with a primary-like goal keeps a primary-like goal through one
engine pass when the failover trigger is off. -/
lemma PL_next_of_PL (t : Bool) (g : Nat) (s : List AutoFailoverNode)
    (p : AutoFailoverNode) (hPL : isPrimaryLike p.goalState = true)
    (hnotrig : ¬ failoverTrigger t s) :
    isPrimaryLike (nextGoal t g s p) = true := by
  unfold nextGoal
  rw [if_neg (fun hc => hnotrig hc.1), if_neg (fun hc => hnotrig hc.1)]
  by_cases c3 : p.goalState = ReplicationState.prepare_promotion
      ∧ p.reportedState = ReplicationState.prepare_promotion
      ∧ p.health = NodeHealthState.good ∧ g ≤ p.reportedLSN
      ∧ hasPrimaryLikeGoal s = false
  · rw [c3.1] at hPL
    exact absurd hPL (by decide)
  · rw [if_neg c3]
    by_cases c4 : p.goalState = ReplicationState.wait_primary
        ∧ p.reportedState = ReplicationState.wait_primary
        ∧ p.health = NodeHealthState.good
        ∧ otherPrimaryLike s p.nodeId = false
        ∧ standbyConfirmed s p.nodeId = true
    · rw [if_pos c4]
      rfl
    · rw [if_neg c4]
      exact hPL

/-- If the failover trigger fires on the output of one engine pass, that
pass changed nothing: the engine output is the input snapshot. -/
lemma trigger_engine_fixed (t : Bool) (g : Nat) (s : List AutoFailoverNode)
    (hnd : (s.map (fun n => n.nodeId)).Nodup)
    (htr : failoverTrigger t (decisionEngine t g s)) :
    decisionEngine t g s = s := by
  have hinj := List.inj_on_of_nodup_map hnd
  have hpromoFS : promotionInFlight (decisionEngine t g s) = false :=
    ((failoverTrigger_iff t (decisionEngine t g s)).mp htr).2.1
  have hnotrig : ¬ failoverTrigger t s := by
    intro hts
    obtain ⟨ht, hpromo, hsome, hex⟩ := (failoverTrigger_iff t s).mp hts
    obtain ⟨c, hc⟩ : ∃ c, selectCandidate s = some c := by
      cases hsel : selectCandidate s with
      | none =>
        unfold selectedId at hsome
        rw [hsel] at hsome
        exact Bool.noConfusion hsome
      | some c => exact ⟨c, rfl⟩
    obtain ⟨hcmem, hcelig, -⟩ := selectCandidate_spec s c hc
    have hng : nextGoal t g s c = ReplicationState.prepare_promotion := by
      unfold nextGoal
      rw [if_neg, if_pos]
      · refine ⟨hts, ?_, hcelig⟩
        unfold selectedId
        rw [hc]
        rfl
      · intro hcon
        have hgood := isEligibleCandidate_health c hcelig
        rw [hgood] at hcon
        exact NodeHealthState.noConfusion hcon.2.2
    have hpr : promotionInFlight (decisionEngine t g s) = true := by
      unfold promotionInFlight decisionEngine
      rw [List.any_eq_true]
      refine ⟨updGoal t g s c, List.mem_map_of_mem _ hcmem, ?_⟩
      show ((nextGoal t g s c == ReplicationState.prepare_promotion)
        || (nextGoal t g s c == ReplicationState.wait_primary)) = true
      rw [hng]
      rfl
    rw [hpromoFS] at hpr
    exact Bool.noConfusion hpr
  have hnob3 : ∀ n ∈ s, ¬(n.goalState = ReplicationState.prepare_promotion
      ∧ n.reportedState = ReplicationState.prepare_promotion
      ∧ n.health = NodeHealthState.good ∧ g ≤ n.reportedLSN
      ∧ hasPrimaryLikeGoal s = false) := by
    intro n hn hcon
    have hng : nextGoal t g s n = ReplicationState.wait_primary := by
      unfold nextGoal
      rw [if_neg (fun hc => hnotrig hc.1), if_neg (fun hc => hnotrig hc.1),
        if_pos hcon]
    have hpr : promotionInFlight (decisionEngine t g s) = true := by
      unfold promotionInFlight decisionEngine
      rw [List.any_eq_true]
      refine ⟨updGoal t g s n, List.mem_map_of_mem _ hn, ?_⟩
      show ((nextGoal t g s n == ReplicationState.prepare_promotion)
        || (nextGoal t g s n == ReplicationState.wait_primary)) = true
      rw [hng]
      rfl
    rw [hpromoFS] at hpr
    exact Bool.noConfusion hpr
  have hnob4 : ∀ m ∈ s, ¬(m.goalState = ReplicationState.wait_primary
      ∧ m.reportedState = ReplicationState.wait_primary
      ∧ m.health = NodeHealthState.good
      ∧ otherPrimaryLike s m.nodeId = false
      ∧ standbyConfirmed s m.nodeId = true) := by
    intro m hm hcon4
    obtain ⟨ht, hpromoFS2, hsomeFS, q, hqmem, hqPL, hqbad⟩ :=
      (failoverTrigger_iff t (decisionEngine t g s)).mp htr
    unfold decisionEngine at hqmem
    rw [List.mem_map] at hqmem
    obtain ⟨p, hp, rfl⟩ := hqmem
    by_cases hcon4p : p.goalState = ReplicationState.wait_primary
        ∧ p.reportedState = ReplicationState.wait_primary
        ∧ p.health = NodeHealthState.good
        ∧ otherPrimaryLike s p.nodeId = false
        ∧ standbyConfirmed s p.nodeId = true
    · have hgood : p.health = NodeHealthState.good := hcon4p.2.2.1
      have hbad : p.health = NodeHealthState.bad := hqbad
      rw [hgood] at hbad
      exact NodeHealthState.noConfusion hbad
    · have hng : nextGoal t g s p = p.goalState := by
        unfold nextGoal
        rw [if_neg (fun hc => hnotrig hc.1), if_neg (fun hc => hnotrig hc.1),
          if_neg (hnob3 p hp), if_neg hcon4p]
      have hPLp : isPrimaryLike p.goalState = true := by
        rw [← hng]
        exact hqPL
      have hother := hcon4.2.2.2.1
      unfold otherPrimaryLike at hother
      rw [List.any_eq_false] at hother
      have hp2 := hother p hp
      have hpid : p.nodeId = m.nodeId := by
        by_contra hne
        refine hp2 ?_
        rw [Bool.and_eq_true, bne_iff_ne]
        exact ⟨hne, hPLp⟩
      exact hcon4p (hinj hp hm hpid ▸ hcon4)
  have hfix : ∀ n ∈ s, nextGoal t g s n = n.goalState := by
    intro n hn
    unfold nextGoal
    rw [if_neg (fun hc => hnotrig hc.1), if_neg (fun hc => hnotrig hc.1),
      if_neg (hnob3 n hn), if_neg (hnob4 n hn)]
  show s.map (updGoal t g s) = s
  have heach : ∀ n ∈ s, updGoal t g s n = id n := by
    intro n hn
    show updGoal t g s n = n
    unfold updGoal
    rw [hfix n hn]
  rw [List.map_congr_left heach, List.map_id]

/-- A standby-like reported state is never prepare_promotion or
wait_primary. -/
lemma standbyLike_ne (r : ReplicationState) (h : isStandbyLike r = true) :
    r ≠ ReplicationState.prepare_promotion ∧ r ≠ ReplicationState.wait_primary := by
  cases r <;> first | decide | exact Bool.noConfusion h

/-- Second-run branch analysis, promotion branch: the candidate-advance
condition cannot hold on the engine output for a node the pass updated. -/
lemma engine_no_second_b3 (t : Bool) (g : Nat) (s : List AutoFailoverNode)
    (n : AutoFailoverNode) (hn : n ∈ s) :
    ¬(nextGoal t g s n = ReplicationState.prepare_promotion
      ∧ n.reportedState = ReplicationState.prepare_promotion
      ∧ n.health = NodeHealthState.good ∧ g ≤ n.reportedLSN
      ∧ hasPrimaryLikeGoal (decisionEngine t g s) = false) := by
  intro hc3
  obtain ⟨hG, hrep, hgood, hlsn, hPLF⟩ := hc3
  by_cases c1 : failoverTrigger t s ∧ isPrimaryLike n.goalState = true
      ∧ n.health = NodeHealthState.bad
  · have hGeq : nextGoal t g s n = ReplicationState.draining := by
      unfold nextGoal
      rw [if_pos c1]
    rw [hGeq] at hG
    exact ReplicationState.noConfusion hG
  by_cases c2 : failoverTrigger t s ∧ selectedId s = some n.nodeId
      ∧ isEligibleCandidate n = true
  · have hsb := isEligibleCandidate_standby n c2.2.2
    exact (standbyLike_ne n.reportedState hsb).1 hrep
  by_cases c3s : n.goalState = ReplicationState.prepare_promotion
      ∧ n.reportedState = ReplicationState.prepare_promotion
      ∧ n.health = NodeHealthState.good ∧ g ≤ n.reportedLSN
      ∧ hasPrimaryLikeGoal s = false
  · have hGeq : nextGoal t g s n = ReplicationState.wait_primary := by
      unfold nextGoal
      rw [if_neg c1, if_neg c2, if_pos c3s]
    rw [hGeq] at hG
    exact ReplicationState.noConfusion hG
  by_cases c4s : n.goalState = ReplicationState.wait_primary
      ∧ n.reportedState = ReplicationState.wait_primary
      ∧ n.health = NodeHealthState.good
      ∧ otherPrimaryLike s n.nodeId = false
      ∧ standbyConfirmed s n.nodeId = true
  · have hGeq : nextGoal t g s n = ReplicationState.primary := by
      unfold nextGoal
      rw [if_neg c1, if_neg c2, if_neg c3s, if_pos c4s]
    rw [hGeq] at hG
    exact ReplicationState.noConfusion hG
  · have hGeq : nextGoal t g s n = n.goalState := by
      unfold nextGoal
      rw [if_neg c1, if_neg c2, if_neg c3s, if_neg c4s]
    have hgoal : n.goalState = ReplicationState.prepare_promotion := by
      rw [← hGeq]
      exact hG
    have hPLs : hasPrimaryLikeGoal s = true := by
      cases hb : hasPrimaryLikeGoal s with
      | false => exact absurd ⟨hgoal, hrep, hgood, hlsn, hb⟩ c3s
      | true => rfl
    obtain ⟨p, hp, hPLp⟩ := hasPL_elim hPLs
    have hnotrig : ¬ failoverTrigger t s :=
      notrig_of_promo t hn (Or.inl hgoal)
    have hPLnext := PL_next_of_PL t g s p hPLp hnotrig
    have := hasPL_engine_intro t g s hp hPLnext
    rw [hPLF] at this
    exact Bool.noConfusion this

/-- Second-run branch analysis, confirmation branch: the wait_primary
confirmation condition cannot hold on the engine output for a node the
pass updated. -/
lemma engine_no_second_b4 (t : Bool) (g : Nat) (s : List AutoFailoverNode)
    (n : AutoFailoverNode) (hn : n ∈ s) :
    ¬(nextGoal t g s n = ReplicationState.wait_primary
      ∧ n.reportedState = ReplicationState.wait_primary
      ∧ n.health = NodeHealthState.good
      ∧ otherPrimaryLike (decisionEngine t g s) n.nodeId = false
      ∧ standbyConfirmed (decisionEngine t g s) n.nodeId = true) := by
  intro hc4
  obtain ⟨hG, hrep, hgood, hotherF, hconfF⟩ := hc4
  by_cases c1 : failoverTrigger t s ∧ isPrimaryLike n.goalState = true
      ∧ n.health = NodeHealthState.bad
  · have hGeq : nextGoal t g s n = ReplicationState.draining := by
      unfold nextGoal
      rw [if_pos c1]
    rw [hGeq] at hG
    exact ReplicationState.noConfusion hG
  by_cases c2 : failoverTrigger t s ∧ selectedId s = some n.nodeId
      ∧ isEligibleCandidate n = true
  · have hGeq : nextGoal t g s n = ReplicationState.prepare_promotion := by
      unfold nextGoal
      rw [if_neg c1, if_pos c2]
    rw [hGeq] at hG
    exact ReplicationState.noConfusion hG
  by_cases c3s : n.goalState = ReplicationState.prepare_promotion
      ∧ n.reportedState = ReplicationState.prepare_promotion
      ∧ n.health = NodeHealthState.good ∧ g ≤ n.reportedLSN
      ∧ hasPrimaryLikeGoal s = false
  · have hpn := c3s.2.1
    rw [hrep] at hpn
    exact ReplicationState.noConfusion hpn
  by_cases c4s : n.goalState = ReplicationState.wait_primary
      ∧ n.reportedState = ReplicationState.wait_primary
      ∧ n.health = NodeHealthState.good
      ∧ otherPrimaryLike s n.nodeId = false
      ∧ standbyConfirmed s n.nodeId = true
  · have hGeq : nextGoal t g s n = ReplicationState.primary := by
      unfold nextGoal
      rw [if_neg c1, if_neg c2, if_neg c3s, if_pos c4s]
    rw [hGeq] at hG
    exact ReplicationState.noConfusion hG
  · have hGeq : nextGoal t g s n = n.goalState := by
      unfold nextGoal
      rw [if_neg c1, if_neg c2, if_neg c3s, if_neg c4s]
    have hgoal : n.goalState = ReplicationState.wait_primary := by
      rw [← hGeq]
      exact hG
    have hconfS : standbyConfirmed s n.nodeId = true := by
      rw [← standbyConfirmed_engine t g s n.nodeId]
      exact hconfF
    have hotherS : otherPrimaryLike s n.nodeId = true := by
      cases hb : otherPrimaryLike s n.nodeId with
      | false => exact absurd ⟨hgoal, hrep, hgood, hb, hconfS⟩ c4s
      | true => rfl
    obtain ⟨p, hp, hpid, hPLp⟩ := otherPL_elim hotherS
    have hnotrig : ¬ failoverTrigger t s :=
      notrig_of_promo t hn (Or.inr hgoal)
    have hPLnext := PL_next_of_PL t g s p hPLp hnotrig
    have := otherPL_engine_intro t g s hp hpid hPLnext
    rw [hotherF] at this
    exact Bool.noConfusion this

/-- Second-run per-node stability: with the trigger off on the engine
output, each node keeps the goal the first pass assigned. -/
lemma nextGoal_engine_stable (t : Bool) (g : Nat) (s : List AutoFailoverNode)
    (hnt : ¬ failoverTrigger t (decisionEngine t g s))
    (n : AutoFailoverNode) (hn : n ∈ s) :
    nextGoal t g (decisionEngine t g s) (updGoal t g s n) = nextGoal t g s n := by
  show (if failoverTrigger t (decisionEngine t g s)
      ∧ isPrimaryLike (nextGoal t g s n) = true ∧ n.health = NodeHealthState.bad
    then ReplicationState.draining
    else if failoverTrigger t (decisionEngine t g s)
      ∧ selectedId (decisionEngine t g s) = some n.nodeId
      ∧ isEligibleCandidate (updGoal t g s n) = true
    then ReplicationState.prepare_promotion
    else if nextGoal t g s n = ReplicationState.prepare_promotion
      ∧ n.reportedState = ReplicationState.prepare_promotion
      ∧ n.health = NodeHealthState.good ∧ g ≤ n.reportedLSN
      ∧ hasPrimaryLikeGoal (decisionEngine t g s) = false
    then ReplicationState.wait_primary
    else if nextGoal t g s n = ReplicationState.wait_primary
      ∧ n.reportedState = ReplicationState.wait_primary
      ∧ n.health = NodeHealthState.good
      ∧ otherPrimaryLike (decisionEngine t g s) n.nodeId = false
      ∧ standbyConfirmed (decisionEngine t g s) n.nodeId = true
    then ReplicationState.primary
    else nextGoal t g s n) = nextGoal t g s n
  rw [if_neg (fun hc => hnt hc.1), if_neg (fun hc => hnt hc.1),
    if_neg (engine_no_second_b3 t g s n hn),
    if_neg (engine_no_second_b4 t g s n hn)]

/-- C5: the decision engine is an idempotent pure function of the group
snapshot: applying it twice yields the same goal-state assignment as
applying it once, for every snapshot with pairwise distinct node ids. -/
theorem c5_engine_idempotent (t : Bool) (g : Nat) (s : List AutoFailoverNode)
    (hnd : (s.map (fun n => n.nodeId)).Nodup) :
    decisionEngine t g (decisionEngine t g s) = decisionEngine t g s := by
  by_cases hfs : decisionEngine t g s = s
  · rw [hfs]
    exact hfs
  · have hnt : ¬ failoverTrigger t (decisionEngine t g s) :=
      fun htr => hfs (trigger_engine_fixed t g s hnd htr)
    show (s.map (updGoal t g s)).map (updGoal t g (decisionEngine t g s))
      = s.map (updGoal t g s)
    rw [List.map_map]
    apply List.map_congr_left
    intro n hn
    show updGoal t g (decisionEngine t g s) (updGoal t g s n) = updGoal t g s n
    have hkey := nextGoal_engine_stable t g s hnt n hn
    show ({ updGoal t g s n with
        goalState := nextGoal t g (decisionEngine t g s) (updGoal t g s n) })
      = updGoal t g s n
    rw [hkey]
    rfl

/-- Closed witness for engine idempotence on a snapshot where the first
pass actually fires the failover trigger. -/
theorem c5_engine_idempotent_witness :
    decisionEngine true 0 (decisionEngine true 0
        [mkNode "p" 1 ReplicationState.primary ReplicationState.primary
           NodeHealthState.bad SyncState.SYNC_STATE_SYNC 50 100 true,
         mkNode "s" 2 ReplicationState.secondary ReplicationState.secondary
           NodeHealthState.good SyncState.SYNC_STATE_QUORUM 45 100 true])
      = decisionEngine true 0
        [mkNode "p" 1 ReplicationState.primary ReplicationState.primary
           NodeHealthState.bad SyncState.SYNC_STATE_SYNC 50 100 true,
         mkNode "s" 2 ReplicationState.secondary ReplicationState.secondary
           NodeHealthState.good SyncState.SYNC_STATE_QUORUM 45 100 true] :=
  c5_engine_idempotent true 0
    [mkNode "p" 1 ReplicationState.primary ReplicationState.primary
       NodeHealthState.bad SyncState.SYNC_STATE_SYNC 50 100 true,
     mkNode "s" 2 ReplicationState.secondary ReplicationState.secondary
       NodeHealthState.good SyncState.SYNC_STATE_QUORUM 45 100 true]
    (by decide)

/-- C10: the header declares Natts_pgautofailover_node as 15, yet the
candidate_priority and replication_quorum column indexes are 16 and 17;
both exceed the declared attribute count, refuting the claim that every
column index is at most Natts_pgautofailover_node. -/
theorem c10_natts_column_indexes :
    Natts_pgautofailover_node < Anum_pgautofailover_node_candidate_priority
    ∧ Natts_pgautofailover_node < Anum_pgautofailover_node_replication_quorum
    ∧ Anum_pgautofailover_node_candidate_priority = 16
    ∧ Anum_pgautofailover_node_replication_quorum = 17
    ∧ Natts_pgautofailover_node = 15 := by
  decide

end PgAutoFailover
